import Mathlib

/-!
Shallow embedding of `src/src/parser/ply/main.py`, a 23-line command-line
entry point:

```python
# (imports: mdl, sys, json, pprint)
mdl_file = sys.argv[1]
parsed = mdl.parseFile(mdl_file)
if parsed:
    (commands, symbols) = parsed
else:
    print("Failed to parse")
wrapper = {"symbols": symbols, "commands": commands}
print(json.dumps(wrapper))
if sys.argv[2] == "true":
    pprint.pprint(wrapper)
```

The external parser `mdl.parseFile` is opaque: it is modelled as a function
parameter `parseFile : String → Option (JValue × JValue)` returning the
`(commands, symbols)` pair on success (a non-empty tuple is always truthy in
Python) and `none` when falsy.  Parsed values are opaque JSON-serialisable
data, modelled by `JValue`.

Control flow is modelled faithfully, including the two latent crashes:
- `sys.argv[1]` raises `IndexError` when no positional argument is given,
  before the parser is ever reached;
- on the falsy branch the names `commands` / `symbols` are never bound, so
  the unconditional `wrapper = {...}` line raises `NameError` after the
  diagnostic has been printed;
- `sys.argv[2]` is only read after the compact JSON line has been printed,
  so a missing second argument raises `IndexError` after the JSON output.

Each `print` / `pprint.pprint` call is one element of the `stdout` trace
(`json.dumps` escapes newlines, so the compact dump is a single line).
An uncaught Python exception terminates the process with a non-zero exit
status; normal fall-through exits with status 0.
-/

/-- Opaque JSON-serialisable values produced by the external parser.
String escaping is not modelled (no claim depends on it). -/
inductive JValue where
  | null
  | bool (b : Bool)
  | num (n : Int)
  | str (s : String)
  | arr (elems : List JValue)
  | obj (fields : List (String × JValue))

mutual

/-- Compact serialisation in the style of Python `json.dumps` with its
default separators `", "` and `": "`; object keys keep insertion order. -/
def jsonDumps : JValue → String
  | .null => "null"
  | .bool true => "true"
  | .bool false => "false"
  | .num n => toString n
  | .str s => "\"" ++ s ++ "\""
  | .arr elems => "[" ++ jsonDumpsElems elems ++ "]"
  | .obj fields => "\x7b" ++ jsonDumpsFields fields ++ "\x7d"

/-- Comma-separated serialisation of array elements. -/
def jsonDumpsElems : List JValue → String
  | [] => ""
  | [v] => jsonDumps v
  | v :: rest => jsonDumps v ++ ", " ++ jsonDumpsElems rest

/-- Comma-separated serialisation of object fields, keys in order. -/
def jsonDumpsFields : List (String × JValue) → String
  | [] => ""
  | [(k, v)] => "\"" ++ k ++ "\": " ++ jsonDumps v
  | (k, v) :: rest => "\"" ++ k ++ "\": " ++ jsonDumps v ++ ", " ++ jsonDumpsFields rest

end

/-- One write to standard output: a `print`ed text line, or the block
produced by `pprint.pprint` of an in-memory document. -/
inductive OutLine where
  | text (s : String)
  | pretty (v : JValue)

/-- The uncaught Python exceptions the script can die with. -/
inductive PyError where
  | indexError
  | nameError
deriving DecidableEq

/-- Observable outcome of one invocation of the script:
the standard-output trace, the exit state (`Except.ok ()` is status 0, an
uncaught exception is a non-zero status), the number of times
`mdl.parseFile` was invoked, and the document handed to `json.dumps`
(if that line was reached). -/
structure RunResult where
  stdout : List OutLine
  exit : Except PyError Unit
  parseCalls : Nat
  emittedDoc : Option JValue

/-- Faithful line-by-line embedding of the script.  `argv` is `sys.argv`
(element 0 is the program name); `parseFile` is the opaque external
`mdl.parseFile`. -/
def run (parseFile : String → Option (JValue × JValue)) (argv : List String) :
    RunResult :=
  match argv[1]? with
  | none =>
      -- line 6: `mdl_file = sys.argv[1]` raises IndexError
      ⟨[], Except.error PyError.indexError, 0, none⟩
  | some mdl_file =>
      -- line 7: `parsed = mdl.parseFile(mdl_file)`
      match parseFile mdl_file with
      | none =>
          -- lines 9-12: falsy result prints the diagnostic and leaves
          -- `commands` / `symbols` unbound; line 14 then raises NameError
          ⟨[OutLine.text "Failed to parse"], Except.error PyError.nameError,
            1, none⟩
      | some (commands, symbols) =>
          -- line 10: `(commands, symbols) = parsed`
          -- lines 14-17: `wrapper = {"symbols": symbols, "commands": commands}`
          let wrapper := JValue.obj [("symbols", symbols), ("commands", commands)]
          -- line 19: `print(json.dumps(wrapper))`
          let outJson := [OutLine.text (jsonDumps wrapper)]
          -- line 22: `sys.argv[2]` raises IndexError when absent
          match argv[2]? with
          | none =>
              ⟨outJson, Except.error PyError.indexError, 1, some wrapper⟩
          | some dbg =>
              if dbg = "true" then
                -- line 23: `pprint.pprint(wrapper)`
                ⟨outJson ++ [OutLine.pretty wrapper], Except.ok (), 1, some wrapper⟩
              else
                ⟨outJson, Except.ok (), 1, some wrapper⟩

/-- Whether the run produced a `pprint` debug rendering. -/
def hasPretty (r : RunResult) : Bool :=
  r.stdout.any fun l => match l with
    | OutLine.pretty _ => true
    | OutLine.text _ => false

/-- The plain text lines of the run (the primary output, with any
`pprint` debug block filtered out). -/
def textLines (r : RunResult) : List String :=
  r.stdout.filterMap fun l => match l with
    | OutLine.text s => some s
    | OutLine.pretty _ => none

/-- A stub external parser that accepts every file, returning an empty
command list and an empty symbol table. -/
def stubAccept : String → Option (JValue × JValue) :=
  fun _ => some (JValue.arr [], JValue.obj [])

/-- A stub external parser that rejects every file. -/
def stubReject : String → Option (JValue × JValue) :=
  fun _ => none

/-- Helper: on a successful parse the text lines of the run are exactly the
single compact JSON line, whatever the debug argument is. -/
theorem textLines_run_success
    (parseFile : String → Option (JValue × JValue)) (argv : List String)
    (f : String) (c s : JValue)
    (h1 : argv[1]? = some f) (hp : parseFile f = some (c, s)) :
    textLines (run parseFile argv) =
      [jsonDumps (JValue.obj [("symbols", s), ("commands", c)])] := by
  cases h2 : argv[2]? with
  | none => simp [run, h1, hp, h2, textLines]
  | some d =>
      by_cases hd : d = "true" <;> simp [run, h1, hp, h2, hd, textLines]

/-- C1: for every input file the external parser accepts, running with debug
disabled (second positional argument present and different from "true")
emits exactly one line on standard output — the compact JSON object with
exactly the two keys "symbols" and "commands", in that order — and the
process exits with status 0. -/
theorem claim_C1_success_single_json_line
    (parseFile : String → Option (JValue × JValue)) (argv : List String)
    (f d : String) (c s : JValue)
    (h1 : argv[1]? = some f)
    (hp : parseFile f = some (c, s))
    (h2 : argv[2]? = some d)
    (hd : d ≠ "true") :
    run parseFile argv =
      ⟨[OutLine.text (jsonDumps (JValue.obj [("symbols", s), ("commands", c)]))],
        Except.ok (), 1,
        some (JValue.obj [("symbols", s), ("commands", c)])⟩ := by
  simp [run, h1, hp, h2, hd]

/-- Witness for C1 at a concrete invocation. -/
theorem claim_C1_success_single_json_line_witness :
    (["main.py", "model.mdl", "false"] : List String)[1]? = some "model.mdl" ∧
    stubAccept "model.mdl" = some (JValue.arr [], JValue.obj []) ∧
    (["main.py", "model.mdl", "false"] : List String)[2]? = some "false" ∧
    ("false" : String) ≠ "true" ∧
    run stubAccept ["main.py", "model.mdl", "false"] =
      ⟨[OutLine.text (jsonDumps (JValue.obj
          [("symbols", JValue.obj []), ("commands", JValue.arr [])]))],
        Except.ok (), 1,
        some (JValue.obj [("symbols", JValue.obj []), ("commands", JValue.arr [])])⟩ :=
  ⟨rfl, rfl, rfl, by decide,
    claim_C1_success_single_json_line stubAccept ["main.py", "model.mdl", "false"]
      "model.mdl" "false" (JValue.arr []) (JValue.obj []) rfl rfl rfl (by decide)⟩

/-- C2: for every input file the external parser rejects, the program writes
the diagnostic line "Failed to parse" as its only text output, emits no JSON
document, and exits with a non-zero status. -/
theorem claim_C2_reject_diagnostic_no_json_nonzero
    (parseFile : String → Option (JValue × JValue)) (argv : List String)
    (f : String)
    (h1 : argv[1]? = some f) (hp : parseFile f = none) :
    textLines (run parseFile argv) = ["Failed to parse"] ∧
    (run parseFile argv).emittedDoc = none ∧
    (run parseFile argv).exit ≠ Except.ok () := by
  simp [run, h1, hp, textLines]

/-- Witness for C2 at a concrete invocation. -/
theorem claim_C2_reject_diagnostic_no_json_nonzero_witness :
    (["main.py", "bad.mdl", "false"] : List String)[1]? = some "bad.mdl" ∧
    stubReject "bad.mdl" = none ∧
    (textLines (run stubReject ["main.py", "bad.mdl", "false"]) = ["Failed to parse"] ∧
     (run stubReject ["main.py", "bad.mdl", "false"]).emittedDoc = none ∧
     (run stubReject ["main.py", "bad.mdl", "false"]).exit ≠ Except.ok ()) :=
  ⟨rfl, rfl,
    claim_C2_reject_diagnostic_no_json_nonzero stubReject
      ["main.py", "bad.mdl", "false"] "bad.mdl" rfl rfl⟩

/-- C3 counterexample: an invocation with exactly one positional argument —
fewer than two — does invoke the parser (the script reads `sys.argv[2]` only
after parsing and printing), so the parser is not "never called" and the
program does not stop before parsing. -/
theorem claim_C3_counterexample :
    (["main.py", "model.mdl"] : List String).length < 3 ∧
    (run stubAccept ["main.py", "model.mdl"]).parseCalls ≠ 0 :=
  ⟨by decide, by decide⟩

/-- C3 amended: only an invocation with no positional argument at all
(missing file path) aborts before invoking the parser — with an uncaught
IndexError rather than a clean usage message — and the parser is never
called in that run; with exactly one positional argument the parser is
still invoked. -/
theorem claim_C3_amended_no_filepath_aborts_before_parse
    (parseFile : String → Option (JValue × JValue)) (argv : List String)
    (h1 : argv[1]? = none) :
    run parseFile argv = ⟨[], Except.error PyError.indexError, 0, none⟩ := by
  simp [run, h1]

/-- Witness for the amended C3 at a concrete invocation. -/
theorem claim_C3_amended_no_filepath_aborts_before_parse_witness :
    (["main.py"] : List String)[1]? = none ∧
    run stubAccept ["main.py"] = ⟨[], Except.error PyError.indexError, 0, none⟩ :=
  ⟨rfl, claim_C3_amended_no_filepath_aborts_before_parse stubAccept ["main.py"] rfl⟩

/-- C4 counterexample: an invocation whose second argument is the literal
"true" but whose file the parser rejects produces no debug rendering (the
failure path dies with NameError before the debug check), refuting the
claimed "for every invocation" equivalence. -/
theorem claim_C4_counterexample :
    ¬ (hasPretty (run stubReject ["main.py", "model.mdl", "true"]) = true ↔
        (["main.py", "model.mdl", "true"] : List String)[2]? = some "true") := by
  decide

/-- C4 amended: for every invocation in which the parser accepts the file,
the debug rendering is produced if and only if the second positional
argument is present and equals the case-sensitive literal "true"; any other
value (or its absence) disables it. -/
theorem claim_C4_amended_debug_iff_true_on_success
    (parseFile : String → Option (JValue × JValue)) (argv : List String)
    (f : String) (c s : JValue)
    (h1 : argv[1]? = some f) (hp : parseFile f = some (c, s)) :
    (hasPretty (run parseFile argv) = true ↔ argv[2]? = some "true") := by
  cases h2 : argv[2]? with
  | none => simp [run, h1, hp, h2, hasPretty]
  | some d =>
      by_cases hd : d = "true" <;> simp [run, h1, hp, h2, hd, hasPretty]

/-- Witness for the amended C4 at a concrete invocation. -/
theorem claim_C4_amended_debug_iff_true_on_success_witness :
    (["main.py", "model.mdl", "true"] : List String)[1]? = some "model.mdl" ∧
    stubAccept "model.mdl" = some (JValue.arr [], JValue.obj []) ∧
    (hasPretty (run stubAccept ["main.py", "model.mdl", "true"]) = true ↔
      (["main.py", "model.mdl", "true"] : List String)[2]? = some "true") :=
  ⟨rfl, rfl,
    claim_C4_amended_debug_iff_true_on_success stubAccept
      ["main.py", "model.mdl", "true"] "model.mdl"
      (JValue.arr []) (JValue.obj []) rfl rfl⟩

/-- C5: for every input file the parser accepts, the debug-enabled run is a
superset of the debug-disabled run: its output is the debug-disabled output
followed by a pretty rendering of the very same document, and the
debug-disabled output is exactly the compact JSON line of that document. -/
theorem claim_C5_debug_superset
    (parseFile : String → Option (JValue × JValue))
    (argvD argvN : List String) (f d : String) (c s : JValue)
    (h1D : argvD[1]? = some f) (h1N : argvN[1]? = some f)
    (hp : parseFile f = some (c, s))
    (h2D : argvD[2]? = some "true")
    (h2N : argvN[2]? = some d) (hd : d ≠ "true") :
    (run parseFile argvD).stdout =
      (run parseFile argvN).stdout ++
        [OutLine.pretty (JValue.obj [("symbols", s), ("commands", c)])] ∧
    (run parseFile argvN).stdout =
      [OutLine.text (jsonDumps (JValue.obj [("symbols", s), ("commands", c)]))] := by
  simp [run, h1D, h1N, hp, h2D, h2N, hd]

/-- Witness for C5 at a concrete pair of invocations. -/
theorem claim_C5_debug_superset_witness :
    (["main.py", "model.mdl", "true"] : List String)[1]? = some "model.mdl" ∧
    (["main.py", "model.mdl", "0"] : List String)[1]? = some "model.mdl" ∧
    stubAccept "model.mdl" = some (JValue.arr [], JValue.obj []) ∧
    (["main.py", "model.mdl", "true"] : List String)[2]? = some "true" ∧
    (["main.py", "model.mdl", "0"] : List String)[2]? = some "0" ∧
    ("0" : String) ≠ "true" ∧
    ((run stubAccept ["main.py", "model.mdl", "true"]).stdout =
      (run stubAccept ["main.py", "model.mdl", "0"]).stdout ++
        [OutLine.pretty (JValue.obj
          [("symbols", JValue.obj []), ("commands", JValue.arr [])])] ∧
     (run stubAccept ["main.py", "model.mdl", "0"]).stdout =
      [OutLine.text (jsonDumps (JValue.obj
        [("symbols", JValue.obj []), ("commands", JValue.arr [])]))]) :=
  ⟨rfl, rfl, rfl, rfl, rfl, by decide,
    claim_C5_debug_superset stubAccept
      ["main.py", "model.mdl", "true"] ["main.py", "model.mdl", "0"]
      "model.mdl" "0" (JValue.arr []) (JValue.obj [])
      rfl rfl rfl rfl rfl (by decide)⟩

/-- C6: the primary (text-line) output of a run depends only on the file
argument and the parser, never on the debug argument or anything else in
`argv`: two invocations with the same parser and the same file argument
produce byte-identical primary output. -/
theorem claim_C6_primary_output_deterministic
    (parseFile : String → Option (JValue × JValue))
    (argv1 argv2 : List String)
    (h : argv1[1]? = argv2[1]?) :
    textLines (run parseFile argv1) = textLines (run parseFile argv2) := by
  cases h1 : argv1[1]? with
  | none =>
      have h1N : argv2[1]? = none := by rw [← h, h1]
      simp [run, h1, h1N, textLines]
  | some f =>
      have h1N : argv2[1]? = some f := by rw [← h, h1]
      cases hp : parseFile f with
      | none => simp [run, h1, h1N, hp, textLines]
      | some cs =>
          obtain ⟨c, s⟩ := cs
          rw [textLines_run_success parseFile argv1 f c s h1 hp,
            textLines_run_success parseFile argv2 f c s h1N hp]

/-- Witness for C6 at a concrete pair of invocations. -/
theorem claim_C6_primary_output_deterministic_witness :
    (["main.py", "model.mdl", "true"] : List String)[1]? =
      (["main.py", "model.mdl", "no"] : List String)[1]? ∧
    textLines (run stubAccept ["main.py", "model.mdl", "true"]) =
      textLines (run stubAccept ["main.py", "model.mdl", "no"]) :=
  ⟨rfl,
    claim_C6_primary_output_deterministic stubAccept
      ["main.py", "model.mdl", "true"] ["main.py", "model.mdl", "no"] rfl⟩

/-- C7: on every successful parse, the document handed to the serialiser is
exactly the wrapper around the parser's own `(commands, symbols)` values,
unmodified — no filtering, reordering or transformation in between. -/
theorem claim_C7_components_unmodified
    (parseFile : String → Option (JValue × JValue)) (argv : List String)
    (f : String) (c s : JValue)
    (h1 : argv[1]? = some f) (hp : parseFile f = some (c, s)) :
    (run parseFile argv).emittedDoc =
      some (JValue.obj [("symbols", s), ("commands", c)]) := by
  cases h2 : argv[2]? with
  | none => simp [run, h1, hp, h2]
  | some d => by_cases hd : d = "true" <;> simp [run, h1, hp, h2, hd]

/-- Witness for C7 at a concrete invocation. -/
theorem claim_C7_components_unmodified_witness :
    (["main.py", "model.mdl", "false"] : List String)[1]? = some "model.mdl" ∧
    stubAccept "model.mdl" = some (JValue.arr [], JValue.obj []) ∧
    (run stubAccept ["main.py", "model.mdl", "false"]).emittedDoc =
      some (JValue.obj [("symbols", JValue.obj []), ("commands", JValue.arr [])]) :=
  ⟨rfl, rfl,
    claim_C7_components_unmodified stubAccept ["main.py", "model.mdl", "false"]
      "model.mdl" (JValue.arr []) (JValue.obj []) rfl rfl⟩

/-- C8 counterexample: an invocation with no positional argument at all dies
at `sys.argv[1]` before the parser is reached, so the parser is invoked zero
times, not exactly once. -/
theorem claim_C8_counterexample :
    (run stubAccept ["main.py"]).parseCalls ≠ 1 := by decide

/-- C8 amended: the external parser is invoked at most once per run — exactly
once whenever the file-path argument is present and zero times otherwise;
there is never a retry. -/
theorem claim_C8_amended_parse_called_at_most_once
    (parseFile : String → Option (JValue × JValue)) (argv : List String) :
    (run parseFile argv).parseCalls =
      if (argv[1]?).isSome then 1 else 0 := by
  cases h1 : argv[1]? with
  | none => simp [run, h1]
  | some f =>
      cases hp : parseFile f with
      | none => simp [run, h1, hp]
      | some cs =>
          obtain ⟨c, s⟩ := cs
          cases h2 : argv[2]? with
          | none => simp [run, h1, hp, h2]
          | some d => by_cases hd : d = "true" <;> simp [run, h1, hp, h2, hd]

/-- C9: on every falsy parse result the script prints the diagnostic and
then still falls through to the wrapper construction, which reads the names
`commands` and `symbols` that were never bound on that branch, so the run
ends in an uncaught NameError after the diagnostic, with no document
emitted. -/
theorem claim_C9_failure_path_nameerror
    (parseFile : String → Option (JValue × JValue)) (argv : List String)
    (f : String)
    (h1 : argv[1]? = some f) (hp : parseFile f = none) :
    run parseFile argv =
      ⟨[OutLine.text "Failed to parse"], Except.error PyError.nameError,
        1, none⟩ := by
  simp [run, h1, hp]

/-- Witness for C9 at a concrete invocation. -/
theorem claim_C9_failure_path_nameerror_witness :
    (["main.py", "bad.mdl", "true"] : List String)[1]? = some "bad.mdl" ∧
    stubReject "bad.mdl" = none ∧
    run stubReject ["main.py", "bad.mdl", "true"] =
      ⟨[OutLine.text "Failed to parse"], Except.error PyError.nameError,
        1, none⟩ :=
  ⟨rfl, rfl,
    claim_C9_failure_path_nameerror stubReject
      ["main.py", "bad.mdl", "true"] "bad.mdl" rfl rfl⟩

/-- C10: for every invocation with a file the parser accepts but fewer than
two positional arguments, the compact JSON document is fully emitted on
standard output before the run aborts with an uncaught IndexError at the
debug-flag check. -/
theorem claim_C10_json_emitted_before_indexerror
    (parseFile : String → Option (JValue × JValue)) (argv : List String)
    (f : String) (c s : JValue)
    (h1 : argv[1]? = some f) (hp : parseFile f = some (c, s))
    (h2 : argv[2]? = none) :
    run parseFile argv =
      ⟨[OutLine.text (jsonDumps (JValue.obj [("symbols", s), ("commands", c)]))],
        Except.error PyError.indexError, 1,
        some (JValue.obj [("symbols", s), ("commands", c)])⟩ := by
  simp [run, h1, hp, h2]

/-- Witness for C10 at a concrete invocation. -/
theorem claim_C10_json_emitted_before_indexerror_witness :
    (["main.py", "model.mdl"] : List String)[1]? = some "model.mdl" ∧
    stubAccept "model.mdl" = some (JValue.arr [], JValue.obj []) ∧
    (["main.py", "model.mdl"] : List String)[2]? = none ∧
    run stubAccept ["main.py", "model.mdl"] =
      ⟨[OutLine.text (jsonDumps (JValue.obj
          [("symbols", JValue.obj []), ("commands", JValue.arr [])]))],
        Except.error PyError.indexError, 1,
        some (JValue.obj [("symbols", JValue.obj []), ("commands", JValue.arr [])])⟩ :=
  ⟨rfl, rfl, rfl,
    claim_C10_json_emitted_before_indexerror stubAccept ["main.py", "model.mdl"]
      "model.mdl" (JValue.arr []) (JValue.obj []) rfl rfl rfl⟩
